import Mathlib

/-!
Shallow embedding of `excel_to_powerpoint_gen.py` (an Excel → PowerPoint
converter) and proofs about its behaviour.

The program reads a workbook (sheet 1: settings row A2:D2, sheet 2: data),
validates the settings, and builds a deck: a title slide, `slide_count - 2`
content slides, and a final slide holding a table rendered from the data
sheet plus a footnote.  The embedding models cell values, Python `int()`
coercion, the hex-colour parser, and the deck builder; geometry is in
inches represented exactly by rationals, exceptions by `Except`.
-/

set_option autoImplicit false

namespace XlsxToPpt

/-- A scalar workbook cell value, in the cases the program distinguishes
(openpyxl hands back Python scalars; a missing cell is `Option.none`). -/
inductive Scalar where
  | str (v : String)
  | int (v : Int)
  | bool (v : Bool)
  deriving DecidableEq, Repr

/-- Python `str()` of a scalar cell value. -/
def Scalar.pyStr : Scalar → String
  | .str v => v
  | .int v => toString v
  | .bool v => if v then "True" else "False"

/-- Python truthiness of a scalar cell value. -/
def Scalar.pyTruthy : Scalar → Bool
  | .str v => v != ""
  | .int v => v != 0
  | .bool v => v

/-- A raised Python exception, by class. -/
inductive PyError where
  | valueError (msg : String)
  | typeError (msg : String)
  deriving DecidableEq, Repr

/-- A worksheet: cell contents addressed by (row, column), 1-based, and the
bounds of the occupied rectangle as openpyxl reports them (`max_row`,
`max_column`; `0` stands for the falsy `None`/`0` the code guards with
`or 1`). -/
structure Sheet where
  cells : Nat → Nat → Option Scalar
  max_row : Nat
  max_column : Nat

/-- A workbook: its ordered worksheets. -/
structure Workbook where
  sheets : List Sheet

/-- Value of a decimal digit character. -/
def decDigitVal (c : Char) : Option Nat :=
  if '0' ≤ c ∧ c ≤ '9' then some (c.toNat - '0'.toNat) else none

/-- Value of a hexadecimal digit character (either case). -/
def hexDigitVal (c : Char) : Option Nat :=
  if '0' ≤ c ∧ c ≤ '9' then some (c.toNat - '0'.toNat)
  else if 'a' ≤ c ∧ c ≤ 'f' then some (c.toNat - 'a'.toNat + 10)
  else if 'A' ≤ c ∧ c ≤ 'F' then some (c.toNat - 'A'.toNat + 10)
  else none

/-- Accumulated value of a digit string; `none` when it is empty or holds a
non-digit (the relevant domain of Python `int(s, base)`). -/
def parseDigits (digitVal : Char → Option Nat) (base : Nat) : List Char → Option Nat
  | [] => none
  | l => l.foldl (fun acc c => acc.bind (fun a => (digitVal c).map (fun d => base * a + d))) (some 0)

/-- Characters of a string with leading and trailing whitespace removed. -/
def pyStripChars (l : List Char) : List Char :=
  ((l.dropWhile Char.isWhitespace).reverse.dropWhile Char.isWhitespace).reverse

/-- Python `str.strip()`. -/
def pyStrip (s : String) : String := ⟨pyStripChars s.data⟩

/-- Python `int(s)` on a string: strips whitespace, allows one sign, then
decimal digits; anything else raises `ValueError`. -/
def pyIntOfString (s : String) : Except PyError Int :=
  match pyStripChars s.data with
  | '-' :: rest =>
      match parseDigits decDigitVal 10 rest with
      | some n => .ok (-(n : Int))
      | none => .error (.valueError ("invalid literal for int() with base 10: " ++ s))
  | '+' :: rest =>
      match parseDigits decDigitVal 10 rest with
      | some n => .ok ((n : Int))
      | none => .error (.valueError ("invalid literal for int() with base 10: " ++ s))
  | t =>
      match parseDigits decDigitVal 10 t with
      | some n => .ok ((n : Int))
      | none => .error (.valueError ("invalid literal for int() with base 10: " ++ s))

/-- Python `int(value)` on a cell value; `None` raises `TypeError`. -/
def pyInt : Option Scalar → Except PyError Int
  | none => .error (.typeError "int() argument must be a string, a bytes-like object or a real number, not NoneType")
  | some (.int n) => .ok n
  | some (.bool b) => .ok (if b then 1 else 0)
  | some (.str s) => pyIntOfString s

/-- Python `int(s, 16)` on the (unsigned) hex strings the program feeds it. -/
def pyIntBase16 (s : String) : Except PyError Nat :=
  match parseDigits hexDigitVal 16 (pyStripChars s.data) with
  | some n => .ok n
  | none => .error (.valueError ("invalid literal for int() with base 16: " ++ s))

/-- Python string slice `s[i:j]`. -/
def pySlice (s : String) (i j : Nat) : String := ⟨(s.data.drop i).take (j - i)⟩

/-- An RGB colour triple (the `RGBColor` value the program builds). -/
structure RGBColor where
  r : Nat
  g : Nat
  b : Nat
  deriving DecidableEq, Repr

/-- Model of `RGBColor(*rgb)`. -/
def RGBColor.ofTuple (t : Nat × Nat × Nat) : RGBColor := ⟨t.1, t.2.1, t.2.2⟩

/-- Model of `_hex_to_rgb_tuple`: convert RRGGBB to (R, G, B) via `int(s[i:i+2], 16)`
for i in (0, 2, 4); raises `ValueError` when malformed. -/
def hex_to_rgb_tuple (hex_str : String) : Except PyError (Nat × Nat × Nat) := do
  let r ← pyIntBase16 (pySlice hex_str 0 2)
  let g ← pyIntBase16 (pySlice hex_str 2 4)
  let b ← pyIntBase16 (pySlice hex_str 4 6)
  .ok (r, g, b)

/-- The `re.fullmatch` validation against exactly six case-insensitive
hexadecimal digits. -/
def isHex6 (s : String) : Bool :=
  s.data.length == 6 && s.data.all (fun c => (hexDigitVal c).isSome)

/-- Model of `s.startswith("#")`. -/
def startsWithHash (s : String) : Bool :=
  match s.data with
  | '#' :: _ => true
  | _ => false

/-- The default colour literal of `_parse_hex_color`. -/
def defaultHexColor : String := "1F4E79"

/-- Model of `_parse_hex_color`: accepts `RRGGBB` or `#RRGGBB`; falls back to the
default when the value is missing (falsy) or fails the hex validation. -/
def parse_hex_color (value : Option String) : Except PyError RGBColor :=
  match value with
  | none => (hex_to_rgb_tuple defaultHexColor).map RGBColor.ofTuple
  | some v =>
      if v = "" then (hex_to_rgb_tuple defaultHexColor).map RGBColor.ofTuple
      else
        let s0 := pyStrip v
        let s := if startsWithHash s0 then (⟨s0.data.drop 1⟩ : String) else s0
        if isHex6 s then (hex_to_rgb_tuple s).map RGBColor.ofTuple
        else (hex_to_rgb_tuple defaultHexColor).map RGBColor.ofTuple

/-- The settings record read from the settings sheet. -/
structure PptSettings where
  slide_count : Int
  title_size_pt : Int
  title_color : RGBColor
  text_size_pt : Int
  deriving DecidableEq, Repr

/-- Model of `_read_settings`: coerce A2, B2, D2 with `int()`, validate
`slide_count ≥ 2`, parse C2 as a colour (passing `str(C2)` when C2 is
truthy, `None` otherwise). -/
def read_settings (sheet : Sheet) : Except PyError PptSettings :=
  match pyInt (sheet.cells 2 1) with
  | .error e => .error e
  | .ok slide_count =>
    match pyInt (sheet.cells 2 2) with
    | .error e => .error e
    | .ok title_size =>
      let title_color := sheet.cells 2 3
      match pyInt (sheet.cells 2 4) with
      | .error e => .error e
      | .ok text_size =>
        if slide_count < 2 then
          .error (.valueError "slide_count (A2) must be at least 2 (title slide + final slide).")
        else
          match parse_hex_color (match title_color with
            | some v => if v.pyTruthy then some v.pyStr else none
            | none => none) with
          | .error e => .error e
          | .ok color => .ok ⟨slide_count, title_size, color, text_size⟩

/-- The converter object after `__init__` succeeded. -/
structure ExcelToPPT where
  settings_sheet : Sheet
  data_sheet : Sheet
  settings : PptSettings

/-- Model of `__init__`: load the workbook, require at least two sheets, pick the
settings and data sheets, read the settings. -/
def ExcelToPPT.init (wb : Workbook) : Except PyError ExcelToPPT :=
  match wb.sheets with
  | s0 :: s1 :: _ => (read_settings s0).map (fun st => ⟨s0, s1, st⟩)
  | _ => .error (.valueError "Workbook must contain at least 2 sheets: settings + data.")

/-- The table shape placed by `add_table`: dimensions, geometry in inches,
and the cell texts row by row. -/
structure TableShape where
  rows : Nat
  cols : Nat
  left : ℚ
  top : ℚ
  width : ℚ
  height : ℚ
  cells : List (List String)
  deriving DecidableEq, Repr

/-- A text box shape: geometry in inches, its text and font size. -/
structure TextBox where
  left : ℚ
  top : ℚ
  width : ℚ
  height : ℚ
  text : String
  size_pt : Int
  deriving DecidableEq, Repr

/-- One slide of the output deck. -/
inductive Slide where
  | titleSlide (titleText : String) (titleSizePt : Int) (titleColor : RGBColor)
  | contentSlide (titleText : String) (body : Option (String × Int))
  | finalSlide (titleText : String) (table : TableShape) (footnote : TextBox)
  deriving DecidableEq, Repr

def Slide.isTitle : Slide → Bool
  | .titleSlide _ _ _ => true
  | _ => false

def Slide.isContent : Slide → Bool
  | .contentSlide _ _ => true
  | _ => false

def Slide.isFinal : Slide → Bool
  | .finalSlide _ _ _ => true
  | _ => false

/-- The title text of a slide. -/
def Slide.titleOf : Slide → String
  | .titleSlide t _ _ => t
  | .contentSlide t _ => t
  | .finalSlide t _ _ => t

/-- A slide with its content body (if any) removed. -/
def Slide.eraseBody : Slide → Slide
  | .contentSlide t _ => .contentSlide t none
  | s => s

/-- Number of table rows: `self.data_sheet.max_row or 1`. -/
def tableRows (ds : Sheet) : Nat := if ds.max_row = 0 then 1 else ds.max_row

/-- Number of table columns: `self.data_sheet.max_column or 1`. -/
def tableCols (ds : Sheet) : Nat := if ds.max_column = 0 then 1 else ds.max_column

/-- Model of `_add_table_from_sheet`: the table and the footnote text box placed on
the final slide.  Geometry follows the source exactly, in inches. -/
def add_table_from_sheet (conv : ExcelToPPT) : TableShape × TextBox :=
  let rows := tableRows conv.data_sheet
  let cols := tableCols conv.data_sheet
  let slide_width_in : ℚ := 10
  let slide_height_in : ℚ := 7.5
  let margin_left : ℚ := 0.7
  let margin_right : ℚ := 0.7
  let top : ℚ := 1.6
  let bottom_margin : ℚ := 1.0
  let table_left := margin_left
  let table_top := top
  let table_width := slide_width_in - margin_left - margin_right
  let max_table_height_in := slide_height_in - top - bottom_margin
  let desired_height := 0.35 * (rows : ℚ)
  let table_height := min desired_height max_table_height_in
  let cellsGrid := (List.range rows).map (fun r =>
    (List.range cols).map (fun c =>
      match conv.data_sheet.cells (r + 1) (c + 1) with
      | none => ""
      | some v => v.pyStr))
  let table : TableShape :=
    ⟨rows, cols, table_left, table_top, table_width, table_height, cellsGrid⟩
  let footnote_top := table_top + table_height + 0.2
  let footnote_height : ℚ := 0.4
  let footnote : TextBox :=
    ⟨table_left, footnote_top, table_width, footnote_height,
      "* The values are estimated.",
      max 8 (conv.settings.text_size_pt - 2)⟩
  (table, footnote)

/-- Python `range(a, b)` over integers. -/
def pyRange (a b : Int) : List Int :=
  (List.range (b - a).toNat).map (fun k : Nat => a + (k : Int))

/-- One middle slide of the loop body for index `i`: title `"Slide {i-1}"`;
`outcome` models whether the `try` block (the `placeholders[1]` access and
body fill) succeeds or raises — on `.error` the `except: pass` leaves the
slide title-only. -/
def contentSlideOf (st : PptSettings) (i : Int) (outcome : Except PyError Unit) : Slide :=
  Slide.contentSlide ("Slide " ++ toString (i - 1))
    (match outcome with
     | .ok _ => some ("Content goes here…", st.text_size_pt)
     | .error _ => none)

/-- The final slide: title "Final Results" plus the table and footnote. -/
def finalSlideOf (conv : ExcelToPPT) : Slide :=
  match add_table_from_sheet conv with
  | (t, fn) => Slide.finalSlide "Final Results" t fn

/-- Model of `create_presentation`: the deck as the ordered slide list — title
slide, the `range(2, slide_count)` loop's content slides, final slide.
`bodyOutcome i` models the environment-dependent `try` block on middle
slide `i` (see `contentSlideOf`). -/
def create_presentation (conv : ExcelToPPT) (bodyOutcome : Int → Except PyError Unit) :
    List Slide :=
  Slide.titleSlide "Presentation" conv.settings.title_size_pt conv.settings.title_color ::
    (pyRange 2 conv.settings.slide_count).map
      (fun i => contentSlideOf conv.settings i (bodyOutcome i)) ++
    [finalSlideOf conv]

/-- The whole run: `__init__` then `create_presentation` then `prs.save`.
`.ok deck` means the deck was saved to the output path; `.error e` means
the exception `e` propagated and the output path was never written. -/
def convert (wb : Workbook) (bodyOutcome : Int → Except PyError Unit) :
    Except PyError (List Slide) :=
  (ExcelToPPT.init wb).map (fun conv => create_presentation conv bodyOutcome)

/-! ### Helper lemmas about the hex-colour parser -/

lemma not_ws_of_hex (c : Char) (h : (hexDigitVal c).isSome) : c.isWhitespace = false := by
  by_contra hws
  simp only [Bool.not_eq_false, Char.isWhitespace, Bool.or_eq_true, decide_eq_true_eq] at hws
  rcases hws with ((rfl | rfl) | rfl) | rfl <;> exact absurd h (by decide)

lemma dropWhile_ws_eq_self (l : List Char) (h : ∀ c ∈ l, (hexDigitVal c).isSome) :
    l.dropWhile Char.isWhitespace = l := by
  cases l with
  | nil => rfl
  | cons c cs => simp [List.dropWhile_cons, not_ws_of_hex c (h c (by simp))]

lemma pyStripChars_eq_self (l : List Char) (h : ∀ c ∈ l, (hexDigitVal c).isSome) :
    pyStripChars l = l := by
  unfold pyStripChars
  rw [dropWhile_ws_eq_self l h,
    dropWhile_ws_eq_self _ (fun c hc => h c (List.mem_reverse.mp hc)),
    List.reverse_reverse]

lemma pyIntBase16_pair (c0 c1 : Char)
    (h0 : (hexDigitVal c0).isSome) (h1 : (hexDigitVal c1).isSome) :
    ∃ n, pyIntBase16 ⟨[c0, c1]⟩ = .ok n := by
  obtain ⟨d0, e0⟩ := Option.isSome_iff_exists.mp h0
  obtain ⟨d1, e1⟩ := Option.isSome_iff_exists.mp h1
  refine ⟨16 * (16 * 0 + d0) + d1, ?_⟩
  unfold pyIntBase16
  rw [show (⟨[c0, c1]⟩ : String).data = [c0, c1] from rfl,
    pyStripChars_eq_self _ (by
      intro c hc
      simp only [List.mem_cons, List.mem_singleton, List.not_mem_nil, or_false] at hc
      rcases hc with rfl | rfl
      · exact h0
      · exact h1)]
  simp [parseDigits, e0, e1]

lemma hex_to_rgb_tuple_ok (s : String) (h : isHex6 s = true) :
    ∃ t, hex_to_rgb_tuple s = .ok t := by
  obtain ⟨l⟩ := s
  simp only [isHex6, Bool.and_eq_true, beq_iff_eq, List.all_eq_true] at h
  obtain ⟨hlen, hall⟩ := h
  rcases l with _ | ⟨c0, l⟩
  case nil => simp at hlen
  rcases l with _ | ⟨c1, l⟩
  case nil => simp at hlen
  rcases l with _ | ⟨c2, l⟩
  case nil => simp at hlen
  rcases l with _ | ⟨c3, l⟩
  case nil => simp at hlen
  rcases l with _ | ⟨c4, l⟩
  case nil => simp at hlen
  rcases l with _ | ⟨c5, l⟩
  case nil => simp at hlen
  rcases l with _ | ⟨c6, l⟩
  case cons => simp at hlen
  have h0 := hall c0 (by simp)
  have h1 := hall c1 (by simp)
  have h2 := hall c2 (by simp)
  have h3 := hall c3 (by simp)
  have h4 := hall c4 (by simp)
  have h5 := hall c5 (by simp)
  obtain ⟨r, hr⟩ := pyIntBase16_pair c0 c1 h0 h1
  obtain ⟨g, hg⟩ := pyIntBase16_pair c2 c3 h2 h3
  obtain ⟨b, hb⟩ := pyIntBase16_pair c4 c5 h4 h5
  refine ⟨(r, g, b), ?_⟩
  unfold hex_to_rgb_tuple
  rw [show pySlice ⟨[c0, c1, c2, c3, c4, c5]⟩ 0 2 = ⟨[c0, c1]⟩ from rfl,
    show pySlice ⟨[c0, c1, c2, c3, c4, c5]⟩ 2 4 = ⟨[c2, c3]⟩ from rfl,
    show pySlice ⟨[c0, c1, c2, c3, c4, c5]⟩ 4 6 = ⟨[c4, c5]⟩ from rfl,
    hr, hg, hb]
  rfl

lemma parse_hex_color_ok (value : Option String) :
    ∃ c, parse_hex_color value = .ok c := by
  cases value with
  | none => exact ⟨⟨31, 78, 121⟩, rfl⟩
  | some v =>
      by_cases hv : v = ""
      · subst hv; exact ⟨⟨31, 78, 121⟩, rfl⟩
      · simp only [parse_hex_color, if_neg hv]
        set s : String :=
          if startsWithHash (pyStrip v) then (⟨(pyStrip v).data.drop 1⟩ : String)
          else pyStrip v with hsdef
        by_cases hhex : isHex6 s = true
        · obtain ⟨t, ht⟩ := hex_to_rgb_tuple_ok s hhex
          rw [if_pos hhex, ht]
          exact ⟨RGBColor.ofTuple t, rfl⟩
        · rw [if_neg hhex]
          exact ⟨⟨31, 78, 121⟩, rfl⟩

/-- Claim C2: `_parse_hex_color` accepts an optional leading `#` and exactly
six hexadecimal digits case-insensitively — "1F4E79", "#1F4E79" and
"1f4e79" all give RGB (31, 78, 121) — while every missing value (`None`,
empty string) and every malformed value (such as "zzzzzz" or "12345")
yields the fixed default colour #1F4E79 = RGB (31, 78, 121); on every
input the parser returns a colour and never raises. -/
theorem C2_parse_hex_color :
    parse_hex_color (some "1F4E79") = .ok ⟨31, 78, 121⟩ ∧
    parse_hex_color (some "#1F4E79") = .ok ⟨31, 78, 121⟩ ∧
    parse_hex_color (some "1f4e79") = .ok ⟨31, 78, 121⟩ ∧
    parse_hex_color none = .ok ⟨31, 78, 121⟩ ∧
    parse_hex_color (some "") = .ok ⟨31, 78, 121⟩ ∧
    parse_hex_color (some "zzzzzz") = .ok ⟨31, 78, 121⟩ ∧
    parse_hex_color (some "12345") = .ok ⟨31, 78, 121⟩ ∧
    (∀ value : Option String, ∃ c : RGBColor, parse_hex_color value = .ok c) :=
  ⟨rfl, rfl, rfl, rfl, rfl, rfl, rfl, parse_hex_color_ok⟩

/-! ### Concrete fixtures -/

/-- Body insertion always succeeding (the layout has a body placeholder). -/
def out0 : Int → Except PyError Unit := fun _ => .ok ()

/-- A settings sheet holding the four cells A2..D2. -/
def settingsSheet (a b c d : Option Scalar) : Sheet :=
  { cells := fun r col =>
      if r = 2 ∧ col = 1 then a
      else if r = 2 ∧ col = 2 then b
      else if r = 2 ∧ col = 3 then c
      else if r = 2 ∧ col = 4 then d
      else none,
    max_row := 2, max_column := 4 }

/-- A data sheet with occupied rectangle `m × n` and one populated cell. -/
def dataSheet (m n : Nat) : Sheet :=
  { cells := fun r c => if r = 1 ∧ c = 1 then some (.str "x") else none,
    max_row := m, max_column := n }

/-- A 1 × 1 data sheet whose only cell is empty. -/
def dataSheetEmpty1x1 : Sheet :=
  { cells := fun _ _ => none, max_row := 1, max_column := 1 }

/-- A converter with body text size `textSize` over an `m × n` data sheet. -/
def convOf (textSize : Int) (m n : Nat) : ExcelToPPT :=
  ⟨settingsSheet (some (.int 4)) (some (.int 32)) (some (.str "#FF0000")) (some (.int textSize)),
    dataSheet m n, ⟨4, 32, ⟨255, 0, 0⟩, textSize⟩⟩

/-- A converter whose data sheet is 1 × 1 with an empty cell. -/
def conv1x1 : ExcelToPPT := { convOf 18 1 1 with data_sheet := dataSheetEmpty1x1 }

/-! ### Helper lemmas about the deck builder -/

lemma pyRange_length (a b : Int) : (pyRange a b).length = (b - a).toNat := by
  unfold pyRange
  rw [List.length_map, List.length_range]

lemma pyRange_getElem? (a b : Int) (k : Nat) (h : k < (b - a).toNat) :
    (pyRange a b)[k]? = some (a + (k : Int)) := by
  unfold pyRange
  rw [List.getElem?_map, List.getElem?_range h, Option.map_some']

@[simp] lemma isContent_contentSlideOf (st : PptSettings) (i : Int)
    (o : Except PyError Unit) : (contentSlideOf st i o).isContent = true := rfl

@[simp] lemma isContent_titleSlide (t : String) (sz : Int) (c : RGBColor) :
    (Slide.titleSlide t sz c).isContent = false := rfl

@[simp] lemma isContent_finalSlideOf (conv : ExcelToPPT) :
    (finalSlideOf conv).isContent = false := rfl

@[simp] lemma eraseBody_contentSlideOf (st : PptSettings) (i : Int)
    (o : Except PyError Unit) :
    (contentSlideOf st i o).eraseBody
      = Slide.contentSlide ("Slide " ++ toString (i - 1)) none := rfl

@[simp] lemma eraseBody_titleSlide (t : String) (sz : Int) (c : RGBColor) :
    (Slide.titleSlide t sz c).eraseBody = Slide.titleSlide t sz c := rfl

lemma map_eraseBody_create (conv : ExcelToPPT) (oo : Int → Except PyError Unit) :
    (create_presentation conv oo).map Slide.eraseBody
      = Slide.titleSlide "Presentation" conv.settings.title_size_pt conv.settings.title_color ::
          ((pyRange 2 conv.settings.slide_count).map
            (fun i => Slide.contentSlide ("Slide " ++ toString (i - 1)) none)
            ++ [(finalSlideOf conv).eraseBody]) := by
  simp [create_presentation, List.map_map, Function.comp_def]

lemma create_length (conv : ExcelToPPT) (oo : Int → Except PyError Unit) :
    (create_presentation conv oo).length
      = (conv.settings.slide_count - 2).toNat + 2 := by
  simp only [create_presentation, List.length_cons, List.length_append,
    List.length_map, List.length_singleton, List.length_nil, pyRange_length]

/-- Claim C1: for every converter whose settings give `slide_count = N`
with `N ≥ 2`, the deck produced by `create_presentation` has exactly `N`
slides: one title slide, `N − 2` content slides (zero when `N = 2`) and
one final results slide, in that order. -/
theorem C1_slide_counts (conv : ExcelToPPT) (out : Int → Except PyError Unit)
    (h : 2 ≤ conv.settings.slide_count) :
    ((create_presentation conv out).length : Int) = conv.settings.slide_count ∧
    (((create_presentation conv out).filter Slide.isContent).length : Int)
      = conv.settings.slide_count - 2 ∧
    ∃ mid : List Slide,
      create_presentation conv out
        = Slide.titleSlide "Presentation" conv.settings.title_size_pt conv.settings.title_color
            :: (mid ++ [finalSlideOf conv]) ∧
      (∀ s ∈ mid, s.isContent = true) ∧
      (mid.length : Int) = conv.settings.slide_count - 2 := by
  refine ⟨?_, ?_, ?_⟩
  · rw [create_length]
    omega
  · have hmem : ∀ s ∈ (pyRange 2 conv.settings.slide_count).map
        (fun i => contentSlideOf conv.settings i (out i)), s.isContent = true := by
      intro s hs
      simp only [List.mem_map] at hs
      obtain ⟨i, _, rfl⟩ := hs
      rfl
    have hfilter : (create_presentation conv out).filter Slide.isContent
        = (pyRange 2 conv.settings.slide_count).map
            (fun i => contentSlideOf conv.settings i (out i)) := by
      simp [create_presentation, List.filter_cons, List.filter_append,
        List.filter_eq_self.mpr hmem]
    rw [hfilter]
    simp only [List.length_map, pyRange_length]
    omega
  · refine ⟨(pyRange 2 conv.settings.slide_count).map
        (fun i => contentSlideOf conv.settings i (out i)), rfl, ?_, ?_⟩
    · intro s hs
      simp only [List.mem_map] at hs
      obtain ⟨i, _, rfl⟩ := hs
      rfl
    · simp only [List.length_map, pyRange_length]
      omega

/-- Witness for C1: the 4-slide concrete converter. -/
theorem C1_witness :
    2 ≤ (convOf 18 3 2).settings.slide_count ∧
    (((create_presentation (convOf 18 3 2) out0).length : Int)
        = (convOf 18 3 2).settings.slide_count ∧
      (((create_presentation (convOf 18 3 2) out0).filter Slide.isContent).length : Int)
        = (convOf 18 3 2).settings.slide_count - 2 ∧
      ∃ mid : List Slide,
        create_presentation (convOf 18 3 2) out0
          = Slide.titleSlide "Presentation" (convOf 18 3 2).settings.title_size_pt
              (convOf 18 3 2).settings.title_color
              :: (mid ++ [finalSlideOf (convOf 18 3 2)]) ∧
        (∀ s ∈ mid, s.isContent = true) ∧
        (mid.length : Int) = (convOf 18 3 2).settings.slide_count - 2) :=
  ⟨by decide, C1_slide_counts (convOf 18 3 2) out0 (by decide)⟩

/-- Claim C7: a failure while populating a content slide's body placeholder
is swallowed: the deck is still produced (no exception reaches the caller),
the slide is emitted with its title, and apart from the body contents the
deck does not depend on whether insertion succeeded. -/
theorem C7_body_failure_swallowed (conv : ExcelToPPT)
    (o o' : Int → Except PyError Unit) (wb : Workbook) :
    (create_presentation conv o).length = (create_presentation conv o').length ∧
    ((create_presentation conv o).map Slide.titleOf
      = (create_presentation conv o').map Slide.titleOf) ∧
    ((create_presentation conv o).map Slide.eraseBody
      = (create_presentation conv o').map Slide.eraseBody) ∧
    ((convert wb o).map (List.map Slide.eraseBody)
      = (convert wb o').map (List.map Slide.eraseBody)) := by
  have herase : ∀ cc : ExcelToPPT, ∀ oo oo' : Int → Except PyError Unit,
      (create_presentation cc oo).map Slide.eraseBody
        = (create_presentation cc oo').map Slide.eraseBody := by
    intro cc oo oo'
    rw [map_eraseBody_create, map_eraseBody_create]
  have htitle : ∀ s : Slide, s.eraseBody.titleOf = s.titleOf := by
    intro s; cases s <;> rfl
  refine ⟨?_, ?_, herase conv o o', ?_⟩
  · rw [create_length, create_length]
  · have hc := congrArg (List.map Slide.titleOf) (herase conv o o')
    simpa [List.map_map, Function.comp_def, htitle] using hc
  · unfold convert
    cases hinit : ExcelToPPT.init wb with
    | error e => simp [Except.map]
    | ok cc => simpa [Except.map] using herase cc o o'

/-- Claim C8: every content slide at 1-based deck position `2 .. N − 1`
(0-based index `j` with `1 ≤ j ≤ N − 2`) is titled `"Slide j"`, and its
body, when inserted, is the fixed placeholder text at the settings body
size. -/
theorem C8_content_slide_titles (conv : ExcelToPPT)
    (out : Int → Except PyError Unit) (j : Nat) (h1 : 1 ≤ j)
    (h2 : (j : Int) ≤ conv.settings.slide_count - 2) :
    (create_presentation conv out)[j]? =
      some (Slide.contentSlide ("Slide " ++ toString (j : Int))
        (match out ((j : Int) + 1) with
          | .ok _ => some ("Content goes here…", conv.settings.text_size_pt)
          | .error _ => none)) := by
  obtain ⟨k, rfl⟩ : ∃ k, j = k + 1 := ⟨j - 1, by omega⟩
  have hk2 : k < ((pyRange 2 conv.settings.slide_count).map
      (fun i => contentSlideOf conv.settings i (out i))).length := by
    simp only [List.length_map, pyRange_length]
    omega
  have hstep : (create_presentation conv out)[k + 1]?
      = ((pyRange 2 conv.settings.slide_count).map
          (fun i => contentSlideOf conv.settings i (out i)) ++ [finalSlideOf conv])[k]? :=
    List.getElem?_cons_succ
  rw [hstep, List.getElem?_append_left hk2, List.getElem?_map,
    pyRange_getElem? _ _ _ (by omega), Option.map_some']
  have hi : (2 : Int) + (k : Int) = ((k + 1 : Nat) : Int) + 1 := by push_cast; ring
  rw [hi]
  have hsub : ((k + 1 : Nat) : Int) + 1 - 1 = ((k + 1 : Nat) : Int) := by ring
  simp only [contentSlideOf, hsub]

/-- Witness for C8: slide index 1 of the concrete 4-slide deck is titled
"Slide 1" with the placeholder body. -/
theorem C8_witness :
    1 ≤ 1 ∧ ((1 : Nat) : Int) ≤ (convOf 18 3 2).settings.slide_count - 2 ∧
    (create_presentation (convOf 18 3 2) out0)[1]? =
      some (Slide.contentSlide ("Slide " ++ toString ((1 : Nat) : Int))
        (match out0 (((1 : Nat) : Int) + 1) with
          | .ok _ => some ("Content goes here…", (convOf 18 3 2).settings.text_size_pt)
          | .error _ => none)) :=
  ⟨le_rfl, by decide, C8_content_slide_titles (convOf 18 3 2) out0 1 le_rfl (by decide)⟩

/-! ### Table geometry and cell claims -/

/-- Claim C4: the table height equals
`min(0.35in × rows, 7.5in − 1.6in − 1.0in = 4.9in)`: for 2 rows the
desired 0.7in is used as-is, for 50 rows the desired 17.5in is clamped to
4.9in, and for every converter the height never exceeds 4.9 inches. -/
theorem C4_table_height :
    (∀ conv : ExcelToPPT,
      (add_table_from_sheet conv).1.height
        = min (0.35 * (tableRows conv.data_sheet : ℚ)) (7.5 - 1.6 - 1.0) ∧
      (add_table_from_sheet conv).1.height ≤ 4.9) ∧
    ((7.5 : ℚ) - 1.6 - 1.0 = 4.9) ∧
    (tableRows (convOf 18 2 2).data_sheet = 2 ∧
      (add_table_from_sheet (convOf 18 2 2)).1.height = 0.7) ∧
    (tableRows (convOf 18 50 2).data_sheet = 50 ∧
      (add_table_from_sheet (convOf 18 50 2)).1.height = 4.9) := by
  refine ⟨fun conv => ⟨rfl, ?_⟩, by norm_num, ⟨rfl, ?_⟩, ⟨rfl, ?_⟩⟩
  · have hle : min (0.35 * (tableRows conv.data_sheet : ℚ)) (7.5 - 1.6 - 1.0)
        ≤ 7.5 - 1.6 - 1.0 := min_le_right _ _
    have he : (add_table_from_sheet conv).1.height
        = min (0.35 * (tableRows conv.data_sheet : ℚ)) (7.5 - 1.6 - 1.0) := rfl
    rw [he]
    linarith
  · show min ((0.35 : ℚ) * ((2 : Nat) : ℚ)) (7.5 - 1.6 - 1.0) = 0.7
    norm_num
  · show min ((0.35 : ℚ) * ((50 : Nat) : ℚ)) (7.5 - 1.6 - 1.0) = 4.9
    norm_num

lemma table_cells_getElem (conv : ExcelToPPT) (r c : Nat)
    (hr : r < tableRows conv.data_sheet) (hc : c < tableCols conv.data_sheet) :
    ((add_table_from_sheet conv).1.cells[r]?.bind (fun rw => rw[c]?))
      = some (match conv.data_sheet.cells (r + 1) (c + 1) with
              | none => ""
              | some v => v.pyStr) := by
  have hcells : (add_table_from_sheet conv).1.cells
      = (List.range (tableRows conv.data_sheet)).map (fun r =>
          (List.range (tableCols conv.data_sheet)).map (fun c =>
            match conv.data_sheet.cells (r + 1) (c + 1) with
            | none => ""
            | some v => v.pyStr)) := rfl
  rw [hcells, List.getElem?_map, List.getElem?_range hr, Option.map_some',
    Option.some_bind, List.getElem?_map, List.getElem?_range hc, Option.map_some']

/-- Claim C5: the final slide's table has exactly the data sheet's occupied
rectangle as dimensions (at least 1 × 1), an absent (`None`) cell renders
as the empty string and a present scalar as its display string. -/
theorem C5_table_cells (conv : ExcelToPPT)
    (h1 : 1 ≤ conv.data_sheet.max_row) (h2 : 1 ≤ conv.data_sheet.max_column) :
    (add_table_from_sheet conv).1.rows = conv.data_sheet.max_row ∧
    (add_table_from_sheet conv).1.cols = conv.data_sheet.max_column ∧
    1 ≤ (add_table_from_sheet conv).1.rows ∧
    1 ≤ (add_table_from_sheet conv).1.cols ∧
    (add_table_from_sheet conv).1.cells.length = (add_table_from_sheet conv).1.rows ∧
    (∀ rw ∈ (add_table_from_sheet conv).1.cells,
      rw.length = (add_table_from_sheet conv).1.cols) ∧
    (∀ r c : Nat, r < (add_table_from_sheet conv).1.rows →
      c < (add_table_from_sheet conv).1.cols →
      ((add_table_from_sheet conv).1.cells[r]?.bind (fun rw => rw[c]?))
        = some (match conv.data_sheet.cells (r + 1) (c + 1) with
                | none => ""
                | some v => v.pyStr)) ∧
    (∀ r c : Nat, r < (add_table_from_sheet conv).1.rows →
      c < (add_table_from_sheet conv).1.cols →
      conv.data_sheet.cells (r + 1) (c + 1) = none →
      ((add_table_from_sheet conv).1.cells[r]?.bind (fun rw => rw[c]?)) = some "") := by
  have hrows : (add_table_from_sheet conv).1.rows = conv.data_sheet.max_row := by
    show tableRows conv.data_sheet = conv.data_sheet.max_row
    unfold tableRows
    rw [if_neg (by omega)]
  have hcols : (add_table_from_sheet conv).1.cols = conv.data_sheet.max_column := by
    show tableCols conv.data_sheet = conv.data_sheet.max_column
    unfold tableCols
    rw [if_neg (by omega)]
  have hrt : (add_table_from_sheet conv).1.rows = tableRows conv.data_sheet := rfl
  have hct : (add_table_from_sheet conv).1.cols = tableCols conv.data_sheet := rfl
  have hcells : (add_table_from_sheet conv).1.cells
      = (List.range (tableRows conv.data_sheet)).map (fun r =>
          (List.range (tableCols conv.data_sheet)).map (fun c =>
            match conv.data_sheet.cells (r + 1) (c + 1) with
            | none => ""
            | some v => v.pyStr)) := rfl
  refine ⟨hrows, hcols, by omega, by omega, ?_, ?_, ?_, ?_⟩
  · rw [hcells, List.length_map, List.length_range, hrt]
  · intro rw hrw
    rw [hcells] at hrw
    simp only [List.mem_map, List.mem_range] at hrw
    obtain ⟨i, _, rfl⟩ := hrw
    rw [List.length_map, List.length_range, hct]
  · intro r c hr hc
    exact table_cells_getElem conv r c (hrt ▸ hr) (hct ▸ hc)
  · intro r c hr hc hnone
    have := table_cells_getElem conv r c (hrt ▸ hr) (hct ▸ hc)
    rw [hnone] at this
    exact this

/-- Witness for C5: a 1 × 1 data sheet with an empty cell yields a 1 × 1
table whose only cell text is the empty string. -/
theorem C5_witness :
    1 ≤ conv1x1.data_sheet.max_row ∧ 1 ≤ conv1x1.data_sheet.max_column ∧
    (add_table_from_sheet conv1x1).1.rows = conv1x1.data_sheet.max_row ∧
    (add_table_from_sheet conv1x1).1.cols = conv1x1.data_sheet.max_column ∧
    ((add_table_from_sheet conv1x1).1.cells[0]?.bind (fun rw => rw[0]?)) = some "" :=
  ⟨le_rfl, le_rfl, (C5_table_cells conv1x1 le_rfl le_rfl).1,
    (C5_table_cells conv1x1 le_rfl le_rfl).2.1,
    (C5_table_cells conv1x1 le_rfl le_rfl).2.2.2.2.2.2.2 0 0 (by decide) (by decide) rfl⟩

/-- Claim C6: the final slide's footnote always reads exactly
"* The values are estimated." and its font size is
`max(8, text_size_pt − 2)` points: 10 → 8, 7 → 8 (floor applies),
20 → 18. -/
theorem C6_footnote :
    (∀ conv : ExcelToPPT,
      (add_table_from_sheet conv).2.text = "* The values are estimated." ∧
      (add_table_from_sheet conv).2.size_pt = max 8 (conv.settings.text_size_pt - 2)) ∧
    (add_table_from_sheet (convOf 10 3 2)).2.size_pt = 8 ∧
    (add_table_from_sheet (convOf 7 3 2)).2.size_pt = 8 ∧
    (add_table_from_sheet (convOf 20 3 2)).2.size_pt = 18 := by
  refine ⟨fun conv => ⟨rfl, rfl⟩, ?_, ?_, ?_⟩
  · show max (8 : Int) (10 - 2) = 8
    norm_num
  · show max (8 : Int) (7 - 2) = 8
    norm_num
  · show max (8 : Int) (20 - 2) = 18
    norm_num

/-- Claim C10: the footnote always lies within the slide canvas
vertically: its top is at most 1.6 + 4.9 + 0.2 = 6.7in and its bottom
(top + 0.4in) at most 7.1in ≤ 7.5in, for every data sheet. -/
theorem C10_footnote_in_canvas (conv : ExcelToPPT) :
    0 ≤ (add_table_from_sheet conv).2.top ∧
    (add_table_from_sheet conv).2.top ≤ 6.7 ∧
    (add_table_from_sheet conv).2.top + (add_table_from_sheet conv).2.height ≤ 7.1 ∧
    (add_table_from_sheet conv).2.top + (add_table_from_sheet conv).2.height ≤ 7.5 := by
  have htop : (add_table_from_sheet conv).2.top
      = 1.6 + min (0.35 * (tableRows conv.data_sheet : ℚ)) (7.5 - 1.6 - 1.0) + 0.2 := rfl
  have hh : (add_table_from_sheet conv).2.height = 0.4 := rfl
  have hle : min (0.35 * (tableRows conv.data_sheet : ℚ)) (7.5 - 1.6 - 1.0)
      ≤ 7.5 - 1.6 - 1.0 := min_le_right _ _
  have hnn : 0 ≤ min (0.35 * (tableRows conv.data_sheet : ℚ)) (7.5 - 1.6 - 1.0) :=
    le_min (by positivity) (by norm_num)
  refine ⟨?_, ?_, ?_, ?_⟩
  · rw [htop]; linarith
  · rw [htop]; linarith
  · rw [htop, hh]; linarith
  · rw [htop, hh]; linarith

/-! ### Validation and coercion failures -/

/-- Settings sheet with A2 = 1 (too small) and an empty D2 cell. -/
def sheetLowD2None : Sheet := settingsSheet (some (.int 1)) (some (.int 2)) none none

/-- Workbook around `sheetLowD2None`. -/
def wbLowD2None : Workbook := ⟨[sheetLowD2None, dataSheet 3 2]⟩

/-- Settings sheet with A2 = 1 and all other integer cells well formed. -/
def sheetLow : Sheet := settingsSheet (some (.int 1)) (some (.int 32)) none (some (.int 18))

/-- Workbook around `sheetLow`. -/
def wbLow : Workbook := ⟨[sheetLow, dataSheet 3 2]⟩

/-- A workbook with a single sheet. -/
def wbOneSheet : Workbook := ⟨[sheetLow]⟩

/-- Settings sheet whose A2 holds the non-numeric string "abc". -/
def sheetBadA2 : Sheet := settingsSheet (some (.str "abc")) (some (.int 32)) none (some (.int 18))

/-- Workbook around `sheetBadA2`. -/
def wbBadA2 : Workbook := ⟨[sheetBadA2, dataSheet 3 2]⟩

/-- True exactly when the run raised an error of class ValueError. -/
def raisedValueError (x : Except PyError (List Slide)) : Bool :=
  match x with
  | .error (.valueError _) => true
  | _ => false

/-- Counterexample to claim C3 as stated: in the workbook `wbLowD2None`
the parsed slide_count is 1 < 2, yet the failure raised during
construction is a TypeError (from `int(None)` on the empty D2 cell, which
is coerced before the slide_count check fires), not the claimed
ValueError; the run still aborts with an error, so no output is written. -/
theorem C3_counterexample :
    pyInt (sheetLowD2None.cells 2 1) = .ok 1 ∧ (1 : Int) < 2 ∧
    convert wbLowD2None out0
      = .error (.typeError "int() argument must be a string, a bytes-like object or a real number, not NoneType") ∧
    raisedValueError (convert wbLowD2None out0) = false :=
  ⟨rfl, by norm_num, rfl, rfl⟩

/-- Claim C3 (amended): a workbook with fewer than 2 sheets makes
construction raise the ValueError about the sheet count; a workbook whose
parsed slide_count is below 2 makes construction raise — the slide_count
ValueError when the remaining integer settings cells coerce successfully,
otherwise that coercion's own error — and in every such case `convert`
returns an error, so the save step is never reached and the output path is
never written. -/
theorem C3_amended (wb : Workbook) (o : Int → Except PyError Unit) :
    (wb.sheets.length < 2 →
      convert wb o
        = .error (.valueError "Workbook must contain at least 2 sheets: settings + data.")) ∧
    (∀ s0 s1 : Sheet, ∀ rest : List Sheet, wb.sheets = s0 :: s1 :: rest →
      ∀ n : Int, pyInt (s0.cells 2 1) = .ok n → n < 2 →
        (∃ e : PyError, convert wb o = .error e) ∧
        (∀ m t : Int, pyInt (s0.cells 2 2) = .ok m → pyInt (s0.cells 2 4) = .ok t →
          convert wb o
            = .error (.valueError "slide_count (A2) must be at least 2 (title slide + final slide).")))
    := by
  constructor
  · intro hlen
    match hws : wb.sheets with
    | [] => simp [convert, ExcelToPPT.init, hws, Except.map]
    | [s] => simp [convert, ExcelToPPT.init, hws, Except.map]
    | s0 :: s1 :: rest =>
        rw [hws] at hlen
        simp at hlen
        omega
  · intro s0 s1 rest hws n hA hn
    constructor
    · cases hB : pyInt (s0.cells 2 2) with
      | error e =>
          exact ⟨e, by
            simp [convert, ExcelToPPT.init, hws, read_settings, hA, hB, Except.map]⟩
      | ok m =>
          cases hD : pyInt (s0.cells 2 4) with
          | error e =>
              exact ⟨e, by
                simp [convert, ExcelToPPT.init, hws, read_settings, hA, hB, hD, Except.map]⟩
          | ok t =>
              refine ⟨.valueError "slide_count (A2) must be at least 2 (title slide + final slide).", ?_⟩
              simp [convert, ExcelToPPT.init, hws, read_settings, hA, hB, hD, Except.map, if_pos hn]
    · intro m t hB hD
      simp [convert, ExcelToPPT.init, hws, read_settings, hA, hB, hD, Except.map, if_pos hn]

/-- Witness for C3 (amended): a one-sheet workbook raises the sheet-count
ValueError, and a two-sheet workbook with slide_count 1 and otherwise
well-formed settings raises the slide_count ValueError; neither run
reaches the save step. -/
theorem C3_witness :
    wbOneSheet.sheets.length < 2 ∧
    convert wbOneSheet out0
      = .error (.valueError "Workbook must contain at least 2 sheets: settings + data.") ∧
    convert wbLow out0
      = .error (.valueError "slide_count (A2) must be at least 2 (title slide + final slide).") :=
  ⟨by decide, (C3_amended wbOneSheet out0).1 (by decide),
    ((C3_amended wbLow out0).2 sheetLow (dataSheet 3 2) [] rfl 1 rfl (by decide)).2 32 18 rfl rfl⟩

/-- Claim C9: non-numeric content in an integer settings cell (A2, B2 or
D2) makes the `int()` coercion raise, and that failure propagates to the
caller unmodified — the converter neither catches, wraps, nor defaults it;
in particular a non-numeric string raises ValueError and an empty cell
raises TypeError. -/
theorem C9_int_coercion_propagates (wb : Workbook) (o : Int → Except PyError Unit)
    (s0 s1 : Sheet) (rest : List Sheet) (hs : wb.sheets = s0 :: s1 :: rest)
    (e : PyError) :
    (pyInt (s0.cells 2 1) = .error e → convert wb o = .error e) ∧
    (∀ n : Int, pyInt (s0.cells 2 1) = .ok n →
      pyInt (s0.cells 2 2) = .error e → convert wb o = .error e) ∧
    (∀ n m : Int, pyInt (s0.cells 2 1) = .ok n → pyInt (s0.cells 2 2) = .ok m →
      pyInt (s0.cells 2 4) = .error e → convert wb o = .error e) ∧
    pyInt (some (.str "abc"))
      = .error (.valueError "invalid literal for int() with base 10: abc") ∧
    pyInt none
      = .error (.typeError "int() argument must be a string, a bytes-like object or a real number, not NoneType") := by
  refine ⟨?_, ?_, ?_, rfl, rfl⟩
  · intro hA
    simp [convert, ExcelToPPT.init, hs, read_settings, hA, Except.map]
  · intro n hA hB
    simp [convert, ExcelToPPT.init, hs, read_settings, hA, hB, Except.map]
  · intro n m hA hB hD
    simp [convert, ExcelToPPT.init, hs, read_settings, hA, hB, hD, Except.map]

/-- Witness for C9: the workbook whose A2 holds "abc" fails with exactly
the ValueError of the coercion. -/
theorem C9_witness :
    pyInt (sheetBadA2.cells 2 1)
      = .error (.valueError "invalid literal for int() with base 10: abc") ∧
    convert wbBadA2 out0
      = .error (.valueError "invalid literal for int() with base 10: abc") :=
  ⟨rfl, (C9_int_coercion_propagates wbBadA2 out0 sheetBadA2 (dataSheet 3 2) [] rfl
    (.valueError "invalid literal for int() with base 10: abc")).1 rfl⟩

end XlsxToPpt
